import Mathlib

/-!
Shallow embedding of the PipelineRunner MCP server (src/server.py and
src/server_simple.py): the command runner, the authentication cache, the
name resolver, the bulk-trigger orchestrator and the run lister, together
with theorems checking the specification's claims about them.

External effects (subprocess execution, JSON parsing by the standard
library, wall-clock time) are modelled as explicit parameters: a
`ProcOutcome` describes what the operating system did with one spawned
process, a `World` oracle gives the result of the i-th external invocation
made during one tool call, and timestamps are rationals.  Every function
threads its state explicitly and additionally returns the list of external
command vectors it actually issued, so that claims of the form "no external
command is invoked" become statements about that trace.
-/

/-- Structured payload, the embedding of a parsed JSON value
(`json.loads` output). -/
inductive Json where
  | null : Json
  | bool (b : Bool) : Json
  | num (n : Int) : Json
  | str (s : String) : Json
  | arr (elems : List Json) : Json
  | obj (fields : List (String × Json)) : Json


/-- `d.get(key)` on a Python dict modelled as a `Json.obj`:
`none` when the key is absent or the value is not an object. -/
def Json.get? : Json → String → Option Json
  | .obj fields, key => (fields.find? (fun f => f.1 = key)).map Prod.snd
  | _, _ => none

/-- Length used by `len(result["data"]) if isinstance(result["data"], list) else 0`
in `bb7_list_runs`. -/
def Json.listLen : Json → Nat
  | .arr elems => elems.length
  | _ => 0

/-- The dictionary returned by `run_az_command`: either
`{"success": True, "data": ...}` or
`{"success": False, "error": ..., "exit_code"?: ...}`. -/
inductive CommandResult where
  | ok (data : Json) : CommandResult
  | err (error : String) (exit_code : Option Int) : CommandResult


def CommandResult.isOk : CommandResult → Bool
  | .ok _ => true
  | .err _ _ => false

/-- What the operating system did with one `subprocess.run` call: the process
completed with an exit code and captured streams, the 30-second timeout fired
(`subprocess.TimeoutExpired`), or launching raised an OS-level exception
(executable missing, permission denied, ...). -/
inductive ProcOutcome where
  | completed (returncode : Int) (stdout : String) (stderr : String) : ProcOutcome
  | timedOut : ProcOutcome
  | osError (msg : String) : ProcOutcome


/-- The ASCII whitespace characters stripped by Python's `str.strip()`. -/
def isPySpace (c : Char) : Bool :=
  c = ' ' || c = '\t' || c = '\n' || c = '\r' || c = '\x0b' || c = '\x0c'

/-- Python's `s.lower()` (kernel-computable). -/
def lowerStr (s : String) : String := String.mk (s.data.map Char.toLower)

/-- Python's `s.strip()` (kernel-computable). -/
def trimStr (s : String) : String :=
  String.mk (((s.data.dropWhile isPySpace).reverse.dropWhile isPySpace).reverse)

/-- Decidable "sub occurs as a contiguous substring" on character lists,
embedding Python's `sub in s`. -/
def listContainsSub (sub : List Char) : List Char → Bool
  | [] => sub.isEmpty
  | c :: rest => sub.isPrefixOf (c :: rest) || listContainsSub sub rest

/-- Python's `sub in s` on strings. -/
def strContains (s sub : String) : Bool :=
  listContainsSub sub.data s.data

/-- Python's `s.startswith(pat)` / `re.match('^pat', s)`. -/
def strStarts (s pat : String) : Bool :=
  pat.data.isPrefixOf s.data

/-- Timeout passed to `subprocess.run` in `run_az_command` (seconds). -/
def COMMAND_TIMEOUT : Nat := 30

/-- Error message returned by `run_az_command` when Azure CLI cannot be located. -/
def AZ_NOT_FOUND_MSG : String :=
  "Azure CLI not found. Please install Azure CLI from https://docs.microsoft.com/en-us/cli/azure/install-azure-cli"

/-- Message returned on `subprocess.TimeoutExpired`. -/
def TIMEOUT_MSG : String := "Command timed out after 30 seconds"

/-- `command[0] = _azure_cli_path` when the first token is the logical name `az`. -/
def substituteAz (path : String) : List String → List String
  | "az" :: rest => path :: rest
  | cmd => cmd

/-- Result of one embedded `run_az_command` call: the returned dictionary, the
updated `_azure_cli_path` cache, and the command vector actually handed to
`subprocess.run` (`none` when no process was spawned because the CLI path
could not be resolved). -/
structure RunAzResult where
  result : CommandResult
  newPathCache : Option String
  executed : Option (List String)


/-- Embedding of `run_az_command` (src/server.py lines 110-172).

`pathCache` is the global `_azure_cli_path`; `locate` is the value
`find_azure_cli_path()` would return if consulted; `parse` is `json.loads`
(`none` = `JSONDecodeError`); `outcome` is what `subprocess.run` did. -/
def run_az_command (pathCache : Option String) (locate : Option String)
    (parse : String → Option Json) (command : List String)
    (outcome : ProcOutcome) : RunAzResult :=
  match pathCache.orElse (fun _ => locate) with
  | none => ⟨.err AZ_NOT_FOUND_MSG none, none, none⟩
  | some path =>
    let cmd := substituteAz path command
    let res : CommandResult :=
      match outcome with
      | .completed rc stdout stderr =>
        if rc = 0 then
          -- json.loads(result.stdout) if result.stdout.strip() else {}
          let data :=
            if trimStr stdout = "" then Json.obj []
            else
              match parse stdout with
              | some j => j
              | none => Json.obj [("output", Json.str stdout)]
          .ok data
        else
          -- error_msg = result.stderr.strip() or result.stdout.strip()
          let errMsg := if trimStr stderr ≠ "" then trimStr stderr else trimStr stdout
          .err errMsg (some rc)
      | .timedOut => .err TIMEOUT_MSG none
      | .osError msg => .err msg none
    ⟨res, some path, some cmd⟩

/-- TTL of the authentication cache, `AUTH_CACHE_DURATION = 300` seconds
(src/server.py line 108). -/
def AUTH_CACHE_DURATION : ℚ := 300

/-- The dictionary built by `check_azure_cli_auth`: `authenticated` plus the
optional extra keys each branch attaches. -/
structure AuthStatus where
  authenticated : Bool
  error : Option String := none
  install_instructions : Option String := none
  suggestion : Option String := none
  account : Option Json := none

/-- The two module-level globals `_auth_status_cache` and `_auth_cache_time`. -/
structure AuthCacheState where
  cache : Option AuthStatus
  cacheTime : Option ℚ

/-- The external world during one tool call: the result `run_az_command`
produces for the i-th external invocation issued, given the command vector. -/
def World : Type := Nat → List String → CommandResult

/-- The three probe command vectors of the verification pipeline. -/
def VERSION_CMD : List String := ["az", "--version"]

def ACCOUNT_CMD : List String := ["az", "account", "show"]

def EXTENSION_CMD : List String := ["az", "extension", "show", "--name", "azure-devops"]

/-- Result of one embedded `check_azure_cli_auth` call: the status returned,
the updated globals, and the commands issued through `run_az_command`. -/
structure AuthCheckResult where
  status : AuthStatus
  newState : AuthCacheState
  invoked : List (List String)

/-- The non-cached path of `check_azure_cli_auth` (src/server.py lines
186-229): three-stage verification, first failing stage short-circuits,
every outcome is cached with the current timestamp. -/
def freshAuthCheck (now : ℚ) (w : World) (k : Nat) : AuthCheckResult :=
  let r1 := w k VERSION_CMD
  if r1.isOk = false then
    let a : AuthStatus :=
      { authenticated := false
        error := some "Azure CLI not found. Please install Azure CLI first."
        install_instructions := some "Visit https://docs.microsoft.com/en-us/cli/azure/install-azure-cli" }
    ⟨a, ⟨some a, some now⟩, [VERSION_CMD]⟩
  else
    let r2 := w (k + 1) ACCOUNT_CMD
    if r2.isOk = false then
      let a : AuthStatus :=
        { authenticated := false
          error := some "Not logged into Azure CLI. Please run 'az login' first."
          suggestion := some "Run 'az login' to authenticate with Azure" }
      ⟨a, ⟨some a, some now⟩, [VERSION_CMD, ACCOUNT_CMD]⟩
    else
      let r3 := w (k + 2) EXTENSION_CMD
      match r3 with
      | .err _ _ =>
        let a : AuthStatus :=
          { authenticated := false
            error := some "Azure DevOps extension not installed."
            suggestion := some "Run 'az extension add --name azure-devops' to install the extension" }
        ⟨a, ⟨some a, some now⟩, [VERSION_CMD, ACCOUNT_CMD, EXTENSION_CMD]⟩
      | .ok data =>
        -- auth_result = {"authenticated": True, "account": result["data"]}
        -- (`result` here is the extension-show result, as in the source)
        let a : AuthStatus := { authenticated := true, account := some data }
        ⟨a, ⟨some a, some now⟩, [VERSION_CMD, ACCOUNT_CMD, EXTENSION_CMD]⟩

/-- Embedding of `check_azure_cli_auth` (src/server.py lines 174-229).
`st` holds the globals, `now` is `datetime.datetime.now().timestamp()`,
`w` resolves external invocations starting at index `k`. -/
def check_azure_cli_auth (st : AuthCacheState) (now : ℚ) (w : World)
    (k : Nat) : AuthCheckResult :=
  match st.cache, st.cacheTime with
  | some cached, some t =>
    if now - t < AUTH_CACHE_DURATION then ⟨cached, st, []⟩
    else freshAuthCheck now w k
  | _, _ => freshAuthCheck now w k

/-- Embedding of `clear_auth_cache` (src/server.py lines 536-546): both
globals are reset. -/
def clear_auth_cache (_st : AuthCacheState) : AuthCacheState := ⟨none, none⟩

/-- One entry of the `pipelines` mapping loaded from `config.yaml`:
`{organization, project, pipelineID, branch?, variables?}`.  `branch = none`
models an entry whose `branch` key is absent (`p.get("branch")` is `None`);
`vars` is the (insertion-ordered) item list of the `variables` mapping —
`[]` when absent or empty. -/
structure PipelineEntry where
  organization : String
  project : String
  pipelineID : Int
  branch : Option String := none
  vars : List (String × String) := []
deriving DecidableEq, Repr

/-- The `pipelines` dict, as an insertion-ordered association list. -/
def Catalog : Type := List (String × PipelineEntry)

/-- `pipelines.get(name)` — exact key lookup. -/
def catalogGet (catalog : Catalog) (name : String) : Option PipelineEntry :=
  (catalog.find? (fun e => e.1 = name)).map Prod.snd

/-- `list(pipelines.keys())`. -/
def catalogNames (catalog : Catalog) : List String :=
  catalog.map Prod.fst

/-- Python string truthiness of `branch if branch else p.get("branch")` /
`if not target_branch:` — an empty string and `None` are both falsy. -/
def truthyStr : Option String → Bool
  | none => false
  | some s => s ≠ ""

/-- `target_branch = branch if branch else p.get("branch")`
(src/server.py line 316). -/
def targetBranch (branch : Option String) (p : PipelineEntry) : Option String :=
  match branch with
  | some b => if b = "" then p.branch else some b
  | none => p.branch

/-- The `az pipelines runs list` command vector built by `bb7_list_runs`
(src/server.py lines 263-270). -/
def listRunsCommand (p : PipelineEntry) (top : Int) : List String :=
  ["az", "pipelines", "runs", "list",
   "--organization", "https://dev.azure.com/" ++ p.organization,
   "--project", p.project,
   "--pipeline-ids", toString p.pipelineID,
   "--top", toString top,
   "--output", "json"]

/-- The `az pipelines run` command vector built per attempt by
`bb7_trigger_bulk` (src/server.py lines 333-345), including the
`--variables` extensions. -/
def triggerCommand (p : PipelineEntry) (branch : String) : List String :=
  ["az", "pipelines", "run",
   "--organization", "https://dev.azure.com/" ++ p.organization,
   "--project", p.project,
   "--id", toString p.pipelineID,
   "--branch", branch,
   "--output", "json"]
  ++ p.vars.flatMap (fun v => ["--variables", v.1 ++ "=" ++ v.2])

/-- The dictionary `bb7_list_runs` returns: one constructor per return
site (src/server.py lines 252, 260, 278, 285). -/
inductive ListRunsResult where
  | notFound (error : String) (available_pipelines : List String) : ListRunsResult
  | authFailure (auth : AuthStatus) : ListRunsResult
  | listed (pipeline_name : String) (runs : Json) (count : Nat) : ListRunsResult
  | listFailed (error : String) (pipeline_name : String) (suggestion : String) : ListRunsResult

/-- Result of one embedded `bb7_list_runs` call: returned value, updated
auth-cache globals, trace of commands issued. -/
structure ListRunsOutput where
  result : ListRunsResult
  newAuth : AuthCacheState
  invoked : List (List String)

/-- Embedding of `bb7_list_runs` (src/server.py lines 238-289). -/
def bb7_list_runs (catalog : Catalog) (authSt : AuthCacheState) (now : ℚ)
    (w : World) (name : String) (top : Int) : ListRunsOutput :=
  match catalogGet catalog name with
  | none =>
    ⟨.notFound ("Pipeline '" ++ name ++ "' not found in config.yaml")
      (catalogNames catalog), authSt, []⟩
  | some p =>
    let ac := check_azure_cli_auth authSt now w 0
    if ac.status.authenticated = false then
      ⟨.authFailure ac.status, ac.newState, ac.invoked⟩
    else
      let cmd := listRunsCommand p top
      match w ac.invoked.length cmd with
      | .ok data =>
        ⟨.listed name data data.listLen, ac.newState, ac.invoked ++ [cmd]⟩
      | .err e _ =>
        ⟨.listFailed ("Failed to list pipeline runs: " ++ e) name
          "Check if you have access to the specified Azure DevOps organization and project",
          ac.newState, ac.invoked ++ [cmd]⟩

/-- One element of the list `bb7_trigger_bulk` returns: one constructor per
dictionary shape appended/returned (src/server.py lines 310, 319, 327,
352, 365). -/
inductive BulkItem where
  | notFound (error : String) (available_pipelines : List String) : BulkItem
  | missingBranch (error : String) (pipeline_config : PipelineEntry) : BulkItem
  | authFailure (auth : AuthStatus) : BulkItem
  | triggered (run_number : Nat) (pipeline_name : String) (branch_used : String)
      (run_id : Option Json) (run_name : Option Json) (state : Option Json)
      (created_date : Option Json) (url : Option Json) (web_url : Option Json) : BulkItem
  | attemptFailed (run_number : Nat) (pipeline_name : String) (error : String) : BulkItem

/-- `run_data.get("_links", {}).get("web", {}).get("href")`. -/
def webHref (data : Json) : Option Json :=
  (((data.get? "_links").getD (Json.obj [])).get? "web").getD (Json.obj []) |>.get? "href"

/-- The early-abort predicate of the bulk loop (src/server.py line 374):
`"authentication" in error.lower() or "unauthorized" in error.lower()`. -/
def authSignal (error : String) : Bool :=
  strContains (lowerStr error) "authentication" || strContains (lowerStr error) "unauthorized"

/-- The `for i in range(count)` loop of `bb7_trigger_bulk` (src/server.py
lines 331-376), with its early abort.  `k` is the number of external
invocations already issued before the loop, `i` the 0-based index of the
next attempt, the last argument the number of remaining iterations.
Returns the appended results and the trace of issued trigger commands. -/
def triggerLoop (w : World) (k : Nat) (name : String) (p : PipelineEntry)
    (branch : String) : Nat → Nat → List BulkItem × List (List String)
  | _, 0 => ([], [])
  | i, n + 1 =>
    let cmd := triggerCommand p branch
    match w (k + i) cmd with
    | .ok run_data =>
      let item := BulkItem.triggered (i + 1) name branch
        (run_data.get? "id") (run_data.get? "name") (run_data.get? "state")
        (run_data.get? "createdDate") (run_data.get? "url") (webHref run_data)
      let rest := triggerLoop w k name p branch (i + 1) n
      (item :: rest.1, cmd :: rest.2)
    | .err e _ =>
      let item := BulkItem.attemptFailed (i + 1) name e
      if authSignal e then ([item], [cmd])
      else
        let rest := triggerLoop w k name p branch (i + 1) n
        (item :: rest.1, cmd :: rest.2)

/-- Result of one embedded `bb7_trigger_bulk` call. -/
structure BulkOutput where
  results : List BulkItem
  newAuth : AuthCacheState
  invoked : List (List String)

/-- Embedding of `bb7_trigger_bulk` (src/server.py lines 295-381).
`count` is a Python `int`; `range(count)` is empty when `count ≤ 0`. -/
def bb7_trigger_bulk (catalog : Catalog) (authSt : AuthCacheState) (now : ℚ)
    (w : World) (name : String) (count : Int) (branch : Option String) :
    BulkOutput :=
  match catalogGet catalog name with
  | none =>
    ⟨[.notFound ("Pipeline '" ++ name ++ "' not found in config.yaml")
        (catalogNames catalog)], authSt, []⟩
  | some p =>
    let target := targetBranch branch p
    if truthyStr target = false then
      ⟨[.missingBranch ("Pipeline '" ++ name ++
          "' missing 'branch' in config.yaml and no branch specified") p],
        authSt, []⟩
    else
      let tb := target.getD ""
      let ac := check_azure_cli_auth authSt now w 0
      if ac.status.authenticated = false then
        ⟨[.authFailure ac.status], ac.newState, ac.invoked⟩
      else
        let loop := triggerLoop w ac.invoked.length name p tb 0 count.toNat
        ⟨loop.1, ac.newState, ac.invoked ++ loop.2⟩

/-- The abbreviation pattern table of `find_pipeline`
(src/server_simple.py lines 52-57): leading-prefix pattern → expansion. -/
def ABBREV_PATTERNS : List (String × String) :=
  [("int", "integration"), ("deploy", "deploy"), ("test", "test"), ("build", "build")]

/-- Tier 1 of `find_pipeline`: exact case-insensitive match
(src/server_simple.py lines 41-44). -/
def tierExact (q : String) (catalog : Catalog) : Option PipelineEntry :=
  (catalog.find? (fun e => (lowerStr e.1) = q)).map Prod.snd

/-- Tier 2 of `find_pipeline`: first entry whose lowercased name contains
the query as a substring (src/server_simple.py lines 46-49). -/
def tierSub (q : String) (catalog : Catalog) : Option PipelineEntry :=
  (catalog.find? (fun e => strContains (lowerStr e.1) q)).map Prod.snd

/-- Tier 3 of `find_pipeline`: pattern loop over `ABBREV_PATTERNS`; for the
next pattern whose prefix matches the query, scan the catalog for a name
containing the expansion, else try the remaining patterns
(src/server_simple.py lines 59-63). -/
def tierAbbrevAux (q : String) (catalog : Catalog) :
    List (String × String) → Option PipelineEntry
  | [] => none
  | (pat, expansion) :: rest =>
    if strStarts q pat then
      match (catalog.find? (fun e => strContains (lowerStr e.1) expansion)).map Prod.snd with
      | some p => some p
      | none => tierAbbrevAux q catalog rest
    else tierAbbrevAux q catalog rest

/-- Tier 3 of `find_pipeline`, entry point. -/
def tierAbbrev (q : String) (catalog : Catalog) : Option PipelineEntry :=
  tierAbbrevAux q catalog ABBREV_PATTERNS

/-- Embedding of `find_pipeline` (src/server_simple.py lines 37-65):
`query_lower = query.lower().strip()`, then exact match, then substring
match, then abbreviation patterns, else `None`. -/
def find_pipeline (query : String) (catalog : Catalog) : Option PipelineEntry :=
  let q := trimStr (lowerStr query)
  match catalog.find? (fun e => (lowerStr e.1) = q) with
  | some e => some e.2
  | none =>
    match catalog.find? (fun e => strContains (lowerStr e.1) q) with
    | some e => some e.2
    | none => tierAbbrevAux q catalog ABBREV_PATTERNS

/-- Which tier of `find_pipeline` produces the match for a (already
normalised) query. -/
inductive MatchTier where
  | exact : MatchTier
  | substring : MatchTier
  | abbreviation : MatchTier
  | noMatch : MatchTier
deriving DecidableEq, Repr

/-- The tier at which `find_pipeline` resolves the query (after the
`lower().strip()` normalisation it applies). -/
def resolveTier (query : String) (catalog : Catalog) : MatchTier :=
  let q := trimStr (lowerStr query)
  if (tierExact q catalog).isSome then .exact
  else if (tierSub q catalog).isSome then .substring
  else if (tierAbbrev q catalog).isSome then .abbreviation
  else .noMatch

/-- The dictionary returned by `run_az_direct` (src/server_simple.py lines
68-105): success with data, or failure with an error message and the
optional `suggestion` attached when the error text contains an
authentication keyword. -/
inductive SimpleResult where
  | ok (data : Json) : SimpleResult
  | err (error : String) (suggestion : Option String) : SimpleResult

/-- The keyword scan of `run_az_direct` (src/server_simple.py line 93):
`any(keyword in error.lower() for keyword in ['login', 'authenticate',
'credential', 'unauthorized'])`. -/
def authKeyword (error : String) : Bool :=
  strContains (lowerStr error) "login" || strContains (lowerStr error) "authenticate" ||
    strContains (lowerStr error) "credential" || strContains (lowerStr error) "unauthorized"

/-- Embedding of `run_az_direct` (src/server_simple.py lines 68-105);
path substitution is omitted from the result as the claims do not
mention it. -/
def run_az_direct (parse : String → Option Json) (outcome : ProcOutcome) :
    SimpleResult :=
  match outcome with
  | .completed rc stdout stderr =>
    if rc = 0 then
      let data :=
        if trimStr stdout = "" then Json.obj []
        else
          match parse stdout with
          | some j => j
          | none => Json.obj [("output", Json.str stdout)]
      .ok data
    else
      let e := if trimStr stderr ≠ "" then trimStr stderr else trimStr stdout
      if authKeyword e then
        .err e (some "Run 'az login' and 'az extension add --name azure-devops' if needed")
      else .err e none
  | .timedOut => .err "Command timed out" none
  | .osError msg => .err msg none

/-- One element of the list returned by `bb7_trigger_bulk` in
src/server_simple.py (lines 120, 126, 149, 158). -/
inductive SSItem where
  | noPipelines : SSItem
  | notFound (error : String) (available : List String) : SSItem
  | triggered (run_number : Nat) (pipeline_name : String) (branch : String)
      (run_id : Option Json) (url : Option Json) : SSItem
  | attemptFailed (run_number : Nat) (error : String) (suggestion : Option String) : SSItem

/-- Python truthiness of `result.get("suggestion")`
(src/server_simple.py line 166). -/
def truthySuggestion : Option String → Bool
  | none => false
  | some s => s ≠ ""

/-- The trigger command vector built per attempt in src/server_simple.py
lines 136-143 (no `--variables` extension in this variant). -/
def ssTriggerCommand (p : PipelineEntry) (branch : String) : List String :=
  ["az", "pipelines", "run",
   "--organization", "https://dev.azure.com/" ++ p.organization,
   "--project", p.project,
   "--id", toString p.pipelineID,
   "--branch", branch,
   "--output", "json"]

/-- The external world for the simple server: result of the i-th
`run_az_direct` invocation. -/
def SimpleWorld : Type := Nat → List String → SimpleResult

/-- The `for i in range(count)` loop of the simple server's
`bb7_trigger_bulk` (src/server_simple.py lines 134-167), aborting after an
attempt whose result carries a truthy `suggestion`. -/
def ssTriggerLoop (w : SimpleWorld) (name : String) (p : PipelineEntry)
    (branch : String) : Nat → Nat → List SSItem × List (List String)
  | _, 0 => ([], [])
  | i, n + 1 =>
    let cmd := ssTriggerCommand p branch
    match w i cmd with
    | .ok run_data =>
      let item := SSItem.triggered (i + 1) name branch
        (run_data.get? "id") (run_data.get? "url")
      let rest := ssTriggerLoop w name p branch (i + 1) n
      (item :: rest.1, cmd :: rest.2)
    | .err e sugg =>
      let item := SSItem.attemptFailed (i + 1) e sugg
      if truthySuggestion sugg then ([item], [cmd])
      else
        let rest := ssTriggerLoop w name p branch (i + 1) n
        (item :: rest.1, cmd :: rest.2)

/-- Embedding of the simple server's `bb7_trigger_bulk`
(src/server_simple.py lines 114-169).  Branch selection is
`branch or pipeline.get("branch", "main")` (line 132): a falsy override
falls back to the configured branch, and a missing configured branch falls
back to `"main"`.  Returns the result list and the trace of issued trigger
commands. -/
def ss_trigger_bulk (catalog : Catalog) (w : SimpleWorld) (name : String)
    (count : Int) (branch : Option String) : List SSItem × List (List String) :=
  match catalog with
  | [] => ([.noPipelines], [])
  | _ :: _ =>
    match find_pipeline name catalog with
    | none =>
      ([.notFound ("Pipeline '" ++ name ++ "' not found") (catalogNames catalog)], [])
    | some p =>
      let tb :=
        match branch with
        | some b => if b = "" then p.branch.getD "main" else b
        | none => p.branch.getD "main"
      ssTriggerLoop w name p tb 0 count.toNat

/-! ### Shared fixtures and helper lemmas -/

/-- A positive cached authentication status. -/
def authOkStatus : AuthStatus := { authenticated := true }

/-- A negative cached authentication status (login stage failed). -/
def authBadStatus : AuthStatus :=
  { authenticated := false
    error := some "Not logged into Azure CLI. Please run 'az login' first."
    suggestion := some "Run 'az login' to authenticate with Azure" }

/-- A configured pipeline entry with a default branch. -/
def webEntry : PipelineEntry :=
  { organization := "contoso", project := "websites", pipelineID := 42
    branch := some "main" }

/-- A configured pipeline entry whose `branch` key is absent. -/
def noBranchEntry : PipelineEntry :=
  { organization := "contoso", project := "websites", pipelineID := 7 }

/-- A demo catalog with one configured pipeline. -/
def demoCatalog : Catalog := [("web", webEntry)]

/-- A world in which every external invocation succeeds with `{}`. -/
def wOk : World := fun _ _ => .ok (Json.obj [])

/-- `freshAuthCheck` always issues the version probe first and caches its
own outcome with the current timestamp. -/
theorem freshAuthCheck_spec (now : ℚ) (w : World) (k : Nat) :
    (freshAuthCheck now w k).invoked.head? = some VERSION_CMD ∧
    (freshAuthCheck now w k).newState =
      ⟨some (freshAuthCheck now w k).status, some now⟩ := by
  unfold freshAuthCheck
  rcases h1 : w k VERSION_CMD with d | ⟨e, c⟩ <;>
    rcases h2 : w (k + 1) ACCOUNT_CMD with d2 | ⟨e2, c2⟩ <;>
      rcases h3 : w (k + 2) EXTENSION_CMD with d3 | ⟨e3, c3⟩ <;>
        simp [CommandResult.isOk, h1, h2, h3]

/-- Every command `freshAuthCheck` issues is one of the three verification
probes. -/
theorem freshAuthCheck_invoked_probes (now : ℚ) (w : World) (k : Nat) :
    ∀ c ∈ (freshAuthCheck now w k).invoked,
      c = VERSION_CMD ∨ c = ACCOUNT_CMD ∨ c = EXTENSION_CMD := by
  intro c hc
  unfold freshAuthCheck at hc
  rcases h1 : w k VERSION_CMD with d | ⟨e, ec⟩ <;>
    rcases h2 : w (k + 1) ACCOUNT_CMD with d2 | ⟨e2, c2⟩ <;>
      rcases h3 : w (k + 2) EXTENSION_CMD with d3 | ⟨e3, c3⟩ <;>
        simp [CommandResult.isOk, h1, h2, h3] at hc <;> tauto

/-- Every command `check_azure_cli_auth` issues is one of the three
verification probes. -/
theorem auth_invoked_probes (st : AuthCacheState) (now : ℚ) (w : World) (k : Nat) :
    ∀ c ∈ (check_azure_cli_auth st now w k).invoked,
      c = VERSION_CMD ∨ c = ACCOUNT_CMD ∨ c = EXTENSION_CMD := by
  intro c hc
  rcases st with ⟨cache, time⟩
  rcases cache with _ | s
  · exact freshAuthCheck_invoked_probes now w k c hc
  · rcases time with _ | t
    · exact freshAuthCheck_invoked_probes now w k c hc
    · have hrw : check_azure_cli_auth ⟨some s, some t⟩ now w k =
          if now - t < AUTH_CACHE_DURATION then ⟨s, ⟨some s, some t⟩, []⟩
          else freshAuthCheck now w k := rfl
      rw [hrw] at hc
      split at hc
      · simp at hc
      · exact freshAuthCheck_invoked_probes now w k c hc

/-- C5: a second `check_azure_cli_auth` within the TTL window of the cached
status issues no new external command, returns the cached `AuthStatus`
itself, and leaves both cache globals (status and timestamp) unchanged —
whatever the cached outcome is, positive or negative. -/
theorem claim_C5_auth_cache_hit (st : AuthCacheState) (s : AuthStatus)
    (t now : ℚ) (w : World) (k : Nat)
    (hc : st.cache = some s) (ht : st.cacheTime = some t)
    (httl : now - t < AUTH_CACHE_DURATION) :
    check_azure_cli_auth st now w k = ⟨s, st, []⟩ := by
  unfold check_azure_cli_auth
  rw [hc, ht]
  simp [httl]

/-- C5 witness: with a status cached at time 0, a check at time 100
(inside the 300-second TTL) returns it unchanged with no invocations. -/
theorem claim_C5_auth_cache_hit_witness :
    check_azure_cli_auth ⟨some authBadStatus, some 0⟩ 100 wOk 0 =
      ⟨authBadStatus, ⟨some authBadStatus, some 0⟩, []⟩ :=
  claim_C5_auth_cache_hit _ authBadStatus 0 100 wOk 0 rfl rfl (by norm_num [AUTH_CACHE_DURATION])

/-- C6: a `check_azure_cli_auth` occurring strictly more than the TTL after
the cached status was computed does not return the cached entry: the whole
fresh verification sequence runs (its first probe is issued), and the fresh
result replaces the cache entry together with the new timestamp. -/
theorem claim_C6_ttl_expiry (st : AuthCacheState) (s : AuthStatus)
    (t now : ℚ) (w : World) (k : Nat)
    (hc : st.cache = some s) (ht : st.cacheTime = some t)
    (hexp : now - t > AUTH_CACHE_DURATION) :
    check_azure_cli_auth st now w k = freshAuthCheck now w k ∧
    (check_azure_cli_auth st now w k).invoked.head? = some VERSION_CMD ∧
    (check_azure_cli_auth st now w k).newState =
      ⟨some (check_azure_cli_auth st now w k).status, some now⟩ := by
  have heq : check_azure_cli_auth st now w k = freshAuthCheck now w k := by
    unfold check_azure_cli_auth
    rw [hc, ht]
    simp [not_lt.mpr (le_of_lt hexp)]
  exact ⟨heq, heq ▸ (freshAuthCheck_spec now w k).1, heq ▸ (freshAuthCheck_spec now w k).2⟩

/-- C6 witness: a positive status cached at time 0 is not reused at time
301 (`> 300`): the version probe is issued and the cache is re-stamped. -/
theorem claim_C6_ttl_expiry_witness :
    check_azure_cli_auth ⟨some authOkStatus, some 0⟩ 301 wOk 0 = freshAuthCheck 301 wOk 0 ∧
    (check_azure_cli_auth ⟨some authOkStatus, some 0⟩ 301 wOk 0).invoked.head? = some VERSION_CMD ∧
    (check_azure_cli_auth ⟨some authOkStatus, some 0⟩ 301 wOk 0).newState =
      ⟨some (check_azure_cli_auth ⟨some authOkStatus, some 0⟩ 301 wOk 0).status, some 301⟩ :=
  claim_C6_ttl_expiry _ authOkStatus 0 301 wOk 0 rfl rfl (by norm_num [AUTH_CACHE_DURATION])

/-- C9: `run_az_command` always yields a structured `CommandResult`
(success or failure — the embedding is a total function, so no fault
escapes): when the CLI path is resolvable, a wall-clock timeout yields the
`Failure` whose message is `"Command timed out after 30 seconds"` (which
contains `"timed out"`), and an operating-system-level launch error is
converted to a `Failure` carrying the exception text; when the CLI cannot
be located at all, the result is the structured not-found `Failure`. -/
theorem claim_C9_runner_total (pathCache locate : Option String)
    (parse : String → Option Json) (command : List String)
    (outcome : ProcOutcome) :
    ((∃ d, (run_az_command pathCache locate parse command outcome).result = .ok d) ∨
     (∃ m c, (run_az_command pathCache locate parse command outcome).result = .err m c)) ∧
    (∀ path, pathCache.orElse (fun _ => locate) = some path → outcome = .timedOut →
      (run_az_command pathCache locate parse command outcome).result = .err TIMEOUT_MSG none ∧
      strContains TIMEOUT_MSG "timed out" = true) ∧
    (∀ path m, pathCache.orElse (fun _ => locate) = some path → outcome = .osError m →
      (run_az_command pathCache locate parse command outcome).result = .err m none) ∧
    (pathCache.orElse (fun _ => locate) = none →
      (run_az_command pathCache locate parse command outcome).result =
        .err AZ_NOT_FOUND_MSG none) := by
  refine ⟨?_, ?_, ?_, ?_⟩
  · unfold run_az_command
    rcases hp : pathCache.orElse (fun _ => locate) with _ | path
    · exact Or.inr ⟨_, _, rfl⟩
    · rcases outcome with ⟨rc, stdout, stderr⟩ | _ | m
      · by_cases hrc : rc = 0
        · simp only [hrc]
          by_cases hs : trimStr stdout = "" <;> rcases hps : parse stdout with _ | j <;>
            simp [hs, hps]
        · right
          refine ⟨if trimStr stderr ≠ "" then trimStr stderr else trimStr stdout,
            some rc, ?_⟩
          simp [hrc]
      · exact Or.inr ⟨_, _, rfl⟩
      · exact Or.inr ⟨_, _, rfl⟩
  · intro path hp hout
    subst hout
    unfold run_az_command
    rw [hp]
    exact ⟨rfl, by decide⟩
  · intro path m hp hout
    subst hout
    unfold run_az_command
    rw [hp]
  · intro hp
    unfold run_az_command
    rw [hp]

/-- C9 witness: with a resolved CLI path, a timed-out invocation and an
OS-level launch error each come back as structured failures. -/
theorem claim_C9_runner_total_witness :
    ((∃ d, (run_az_command (some "az") none (fun _ => none) VERSION_CMD .timedOut).result = .ok d) ∨
     (∃ m c, (run_az_command (some "az") none (fun _ => none) VERSION_CMD .timedOut).result = .err m c)) ∧
    (run_az_command (some "az") none (fun _ => none) VERSION_CMD .timedOut).result =
      .err TIMEOUT_MSG none ∧
    strContains TIMEOUT_MSG "timed out" = true ∧
    (run_az_command (some "az") none (fun _ => none) VERSION_CMD
      (.osError "[WinError 5] Access is denied")).result =
        .err "[WinError 5] Access is denied" none :=
  ⟨(claim_C9_runner_total (some "az") none (fun _ => none) VERSION_CMD .timedOut).1,
   ((claim_C9_runner_total (some "az") none (fun _ => none) VERSION_CMD .timedOut).2.1
      "az" rfl rfl).1,
   ((claim_C9_runner_total (some "az") none (fun _ => none) VERSION_CMD .timedOut).2.1
      "az" rfl rfl).2,
   (claim_C9_runner_total (some "az") none (fun _ => none) VERSION_CMD
      (.osError "[WinError 5] Access is denied")).2.2.1
      "az" "[WinError 5] Access is denied" rfl rfl⟩

/-- C8 counterexample: a process that exits 0 with whitespace-only standard
output (`" "`). The code guards `json.loads` behind `if stdout.strip()`,
so no parse is attempted and the successful result carries the empty object
`{}` — not `{output: " "}` as the claim's parse-failure branch requires
(parsing `" "` fails under `json.loads`).  The result is the same whatever
the parser would say, as shown by instantiating it both ways. -/
theorem claim_C8_counterexample :
    (run_az_command (some "az") none (fun _ => none) VERSION_CMD
      (.completed 0 " " "")).result = .ok (Json.obj []) ∧
    (run_az_command (some "az") none (fun _ => some (Json.num 7)) VERSION_CMD
      (.completed 0 " " "")).result = .ok (Json.obj []) ∧
    CommandResult.ok (Json.obj []) ≠
      CommandResult.ok (Json.obj [("output", Json.str " ")]) := by
  refine ⟨rfl, rfl, ?_⟩
  intro h
  simp at h

/-- C8 (amended): on zero exit the result is always a `Success`; when the
stripped standard output is non-empty, a successful parse yields `Success`
with the parsed data and a failed parse yields `Success{data: {output:
rawText}}`; when the stripped standard output is empty, no parse is
attempted and the `Success` carries the empty object.  A parse failure on
exit-0 output is never reported as a command failure. -/
theorem claim_C8_exit0_success (pathCache locate : Option String) (path : String)
    (parse : String → Option Json) (command : List String)
    (stdout stderr : String)
    (hp : pathCache.orElse (fun _ => locate) = some path) :
    (∃ d, (run_az_command pathCache locate parse command
        (.completed 0 stdout stderr)).result = .ok d) ∧
    (trimStr stdout ≠ "" → ∀ j, parse stdout = some j →
      (run_az_command pathCache locate parse command
        (.completed 0 stdout stderr)).result = .ok j) ∧
    (trimStr stdout ≠ "" → parse stdout = none →
      (run_az_command pathCache locate parse command
        (.completed 0 stdout stderr)).result =
          .ok (Json.obj [("output", Json.str stdout)])) ∧
    (trimStr stdout = "" →
      (run_az_command pathCache locate parse command
        (.completed 0 stdout stderr)).result = .ok (Json.obj [])) := by
  unfold run_az_command
  rw [hp]
  refine ⟨?_, ?_, ?_, ?_⟩
  · by_cases hs : trimStr stdout = "" <;> rcases hps : parse stdout with _ | j <;>
      simp [hs, hps]
  · intro hs j hj
    simp [hs, hj]
  · intro hs hj
    simp [hs, hj]
  · intro hs
    simp [hs]

/-- C8 witness: with `stdout = "[1]"` parsing to a one-element array, the
exit-0 result is that parsed array; with a parser that fails on it, the
exit-0 result is `{output: "[1]"}`. -/
theorem claim_C8_exit0_success_witness :
    (run_az_command (some "az") none (fun _ => some (Json.arr [Json.num 1])) VERSION_CMD
      (.completed 0 "[1]" "")).result = .ok (Json.arr [Json.num 1]) ∧
    (run_az_command (some "az") none (fun _ => none) VERSION_CMD
      (.completed 0 "[1]" "")).result = .ok (Json.obj [("output", Json.str "[1]")]) :=
  ⟨(claim_C8_exit0_success (some "az") none "az" (fun _ => some (Json.arr [Json.num 1]))
      VERSION_CMD "[1]" "" rfl).2.1 (by decide) (Json.arr [Json.num 1]) rfl,
   (claim_C8_exit0_success (some "az") none "az" (fun _ => none)
      VERSION_CMD "[1]" "" rfl).2.2.1 (by decide) rfl⟩

/-- First entry of the two-pipeline test catalog. -/
def intMainEntry : PipelineEntry :=
  { organization := "contoso", project := "websites", pipelineID := 101
    branch := some "main" }

/-- Second entry of the two-pipeline test catalog. -/
def intTestEntry : PipelineEntry :=
  { organization := "contoso", project := "websites", pipelineID := 102
    branch := some "test" }

/-- The catalog `{"integration-main": …, "integration-test": …}` in
insertion order. -/
def intCatalog : Catalog :=
  [("integration-main", intMainEntry), ("integration-test", intTestEntry)]

/-- A simple-server world in which every invocation succeeds with `{}`. -/
def ssOkWorld : SimpleWorld := fun _ _ => .ok (Json.obj [])

/-- C7 counterexample: over the catalog `{"integration-main",
"integration-test"}`, the query `"int"` is already a substring of
`"integration-main"`, so `find_pipeline` resolves it at the substring tier
— not at the abbreviation tier as the claim states. -/
theorem claim_C7_counterexample :
    resolveTier "int" intCatalog = MatchTier.substring ∧
    resolveTier "int" intCatalog ≠ MatchTier.abbreviation := by
  refine ⟨by decide, ?_⟩
  intro h
  rw [show resolveTier "int" intCatalog = MatchTier.substring from by decide] at h
  exact absurd h (by decide)

/-- C7 (amended): name resolution is tiered with the first matching tier
winning — exact case-insensitive match on the trimmed lowered query, then
first catalog entry in insertion order containing the query as a substring,
then abbreviation-pattern expansion followed by substring match — and a
query matching no tier propagates as a not-found result carrying the full
list of catalog names.  Over `{"integration-main", "integration-test"}`:
`"integration"` resolves at the substring tier to the first entry in
insertion order; `"int"` resolves at the substring tier (not the
abbreviation tier, since `"int"` is itself a substring of
`"integration-main"`) to that same first entry, whose name contains
`"integration"`; `"nomatch"` matches no tier and the caller reports both
names. -/
theorem claim_C7_tiered_resolution :
    (∀ (q : String) (catalog : Catalog),
      find_pipeline q catalog =
        ((tierExact (trimStr (lowerStr q)) catalog).orElse (fun _ =>
          (tierSub (trimStr (lowerStr q)) catalog).orElse (fun _ =>
            tierAbbrev (trimStr (lowerStr q)) catalog)))) ∧
    (find_pipeline "integration" intCatalog = some intMainEntry ∧
      resolveTier "integration" intCatalog = MatchTier.substring) ∧
    (find_pipeline "int" intCatalog = some intMainEntry ∧
      resolveTier "int" intCatalog = MatchTier.substring ∧
      strContains (lowerStr "integration-main") "integration" = true) ∧
    (find_pipeline "nomatch" intCatalog = none ∧
      resolveTier "nomatch" intCatalog = MatchTier.noMatch) ∧
    (∀ (catalog : Catalog) (w : SimpleWorld) (q : String) (count : Int)
        (branch : Option String),
      catalog ≠ [] → find_pipeline q catalog = none →
      ss_trigger_bulk catalog w q count branch =
        ([.notFound ("Pipeline '" ++ q ++ "' not found") (catalogNames catalog)], [])) := by
  refine ⟨?_, ⟨by decide, by decide⟩, ⟨by decide, by decide, by decide⟩,
    ⟨by decide, by decide⟩, ?_⟩
  · intro q catalog
    unfold find_pipeline tierExact tierSub tierAbbrev
    rcases h1 : catalog.find? (fun e => lowerStr e.1 = trimStr (lowerStr q)) with _ | e1 <;>
      rcases h2 : catalog.find? (fun e => strContains (lowerStr e.1) (trimStr (lowerStr q))) with _ | e2 <;>
        simp [h1, h2, Option.orElse]
  · intro catalog w q count branch hne hnf
    rcases catalog with _ | ⟨e, rest⟩
    · exact absurd rfl hne
    · unfold ss_trigger_bulk
      rw [hnf]

/-- A world in which every external invocation (probes included) succeeds,
and the list-runs response is an array of 50 run records. -/
def w50 : World := fun _ _ => .ok (Json.arr (List.replicate 50 Json.null))

/-- C1: evaluation of `bb7_list_runs` at the claim's failing input — a
configured pipeline, `top = 5`, authentication passing, and the external
tool's successful response containing 50 run records.  The code passes
`top` to the external tool (`--top`) and returns the response unchanged:
all 50 records come back and `count = 50`, not the first 5 with
`count = 5`, contradicting the claim and the tool's own description
"local limit to 'top'" — no client-side truncation exists. -/
theorem claim_C1_no_truncation :
    (bb7_list_runs demoCatalog ⟨none, none⟩ 0 w50 "web" 5).result =
      .listed "web" (Json.arr (List.replicate 50 Json.null)) 50 ∧
    (Json.arr (List.replicate 50 Json.null)).listLen = 50 ∧
    (50 : Nat) ≠ 5 ∧
    (bb7_list_runs demoCatalog ⟨none, none⟩ 0 w50 "web" 5).invoked.getLast? =
      some (listRunsCommand webEntry 5) :=
  ⟨rfl, rfl, by decide, rfl⟩

/-- A simple-server world in which a trigger attempt always succeeds. -/
def ssOkWorld2 : SimpleWorld := fun _ _ => .ok (Json.obj [])

/-- C3 counterexample: the simple server's `bb7_trigger_bulk`
(src/server_simple.py, cited by the claim) does not report a missing-branch
condition when the entry has no configured branch and no override is
supplied: branch selection falls back to `"main"`
(`branch or pipeline.get("branch", "main")`) and the external trigger
command is invoked — here three times for `count = 3`. -/
theorem claim_C3_counterexample :
    ss_trigger_bulk [("pipe", noBranchEntry)] ssOkWorld2 "pipe" 3 none =
      ([.triggered 1 "pipe" "main" none none,
        .triggered 2 "pipe" "main" none none,
        .triggered 3 "pipe" "main" none none],
       [ssTriggerCommand noBranchEntry "main", ssTriggerCommand noBranchEntry "main",
        ssTriggerCommand noBranchEntry "main"]) ∧
    (ss_trigger_bulk [("pipe", noBranchEntry)] ssOkWorld2 "pipe" 3 none).2 ≠ [] := by
  refine ⟨rfl, ?_⟩
  intro h
  rw [show (ss_trigger_bulk [("pipe", noBranchEntry)] ssOkWorld2 "pipe" 3 none).2 =
    [ssTriggerCommand noBranchEntry "main", ssTriggerCommand noBranchEntry "main",
     ssTriggerCommand noBranchEntry "main"] from rfl] at h
  exact absurd h (by simp)

/-- C3 (amended): in src/server.py's `bb7_trigger_bulk`, a call on a
configured entry with no branch override and no configured default branch
returns the single-element missing-branch failure batch, with the
authentication-cache state untouched and zero external commands invoked
(the conclusion holds for every world and leaves the state unchanged, so
neither the authentication check nor any trigger command runs); the
simple-server variant instead falls back to branch `"main"` and proceeds
to trigger. -/
theorem claim_C3_missing_branch (catalog : Catalog) (authSt : AuthCacheState)
    (now : ℚ) (w : World) (name : String) (count : Int) (p : PipelineEntry)
    (hp : catalogGet catalog name = some p) (hb : p.branch = none) :
    bb7_trigger_bulk catalog authSt now w name count none =
      ⟨[.missingBranch ("Pipeline '" ++ name ++
          "' missing 'branch' in config.yaml and no branch specified") p],
        authSt, []⟩ := by
  unfold bb7_trigger_bulk
  rw [hp]
  simp [targetBranch, hb, truthyStr]

/-- C3 witness: concrete instance of the server.py missing-branch guard —
single-element batch, unchanged auth state, empty invocation trace. -/
theorem claim_C3_missing_branch_witness :
    bb7_trigger_bulk [("pipe", noBranchEntry)] ⟨none, none⟩ 0 w50 "pipe" 3 none =
      ⟨[.missingBranch "Pipeline 'pipe' missing 'branch' in config.yaml and no branch specified"
          noBranchEntry], ⟨none, none⟩, []⟩ :=
  claim_C3_missing_branch [("pipe", noBranchEntry)] ⟨none, none⟩ 0 w50 "pipe" 3
    noBranchEntry rfl rfl

/-- C4: when the authentication check comes back `authenticated = false`,
`bb7_trigger_bulk` returns the single-element batch carrying that failure
and `bb7_list_runs` returns that failure itself; in both cases the commands
issued are exactly the authentication check's own probes — every one is one
of the three verification probes, so zero trigger or list commands are
issued and the loop never starts. -/
theorem claim_C4_auth_short_circuit (catalog : Catalog) (authSt : AuthCacheState)
    (now : ℚ) (w : World) (name : String) (count top : Int)
    (branch : Option String) (p : PipelineEntry)
    (hp : catalogGet catalog name = some p)
    (hb : truthyStr (targetBranch branch p) = true)
    (hauth : (check_azure_cli_auth authSt now w 0).status.authenticated = false) :
    bb7_trigger_bulk catalog authSt now w name count branch =
      ⟨[.authFailure (check_azure_cli_auth authSt now w 0).status],
        (check_azure_cli_auth authSt now w 0).newState,
        (check_azure_cli_auth authSt now w 0).invoked⟩ ∧
    bb7_list_runs catalog authSt now w name top =
      ⟨.authFailure (check_azure_cli_auth authSt now w 0).status,
        (check_azure_cli_auth authSt now w 0).newState,
        (check_azure_cli_auth authSt now w 0).invoked⟩ ∧
    (∀ c ∈ (check_azure_cli_auth authSt now w 0).invoked,
      c = VERSION_CMD ∨ c = ACCOUNT_CMD ∨ c = EXTENSION_CMD) := by
  refine ⟨?_, ?_, auth_invoked_probes authSt now w 0⟩
  · unfold bb7_trigger_bulk
    rw [hp]
    simp [hb, hauth]
  · unfold bb7_list_runs
    rw [hp]
    simp [hauth]

/-- A world whose login probe (invocation index 1) fails: the
authentication check comes back negative. -/
def wNoLogin : World := fun i _ =>
  if i = 1 then .err "ERROR: Please run 'az login' to setup account." none
  else .ok (Json.obj [])

/-- C4 witness: with the login probe failing, both tools return the
authentication failure and the trace holds only the two probes issued. -/
theorem claim_C4_auth_short_circuit_witness :
    bb7_trigger_bulk demoCatalog ⟨none, none⟩ 0 wNoLogin "web" 5 none =
      ⟨[.authFailure (check_azure_cli_auth ⟨none, none⟩ 0 wNoLogin 0).status],
        (check_azure_cli_auth ⟨none, none⟩ 0 wNoLogin 0).newState,
        (check_azure_cli_auth ⟨none, none⟩ 0 wNoLogin 0).invoked⟩ ∧
    bb7_list_runs demoCatalog ⟨none, none⟩ 0 wNoLogin "web" 5 =
      ⟨.authFailure (check_azure_cli_auth ⟨none, none⟩ 0 wNoLogin 0).status,
        (check_azure_cli_auth ⟨none, none⟩ 0 wNoLogin 0).newState,
        (check_azure_cli_auth ⟨none, none⟩ 0 wNoLogin 0).invoked⟩ ∧
    (∀ c ∈ (check_azure_cli_auth ⟨none, none⟩ 0 wNoLogin 0).invoked,
      c = VERSION_CMD ∨ c = ACCOUNT_CMD ∨ c = EXTENSION_CMD) :=
  claim_C4_auth_short_circuit demoCatalog ⟨none, none⟩ 0 wNoLogin "web" 5 5 none
    webEntry rfl rfl rfl

/-- C10: a bulk-trigger call with `count ≤ 0` on a configured pipeline with
an available branch and a positive authentication check returns the empty
batch; the commands issued are exactly the authentication check's — the
name resolution, branch selection and authentication check all ran, but no
trigger attempt was made. -/
theorem claim_C10_zero_count (catalog : Catalog) (authSt : AuthCacheState)
    (now : ℚ) (w : World) (name : String) (count : Int)
    (branch : Option String) (p : PipelineEntry)
    (hp : catalogGet catalog name = some p)
    (hb : truthyStr (targetBranch branch p) = true)
    (hauth : (check_azure_cli_auth authSt now w 0).status.authenticated = true)
    (hcount : count ≤ 0) :
    bb7_trigger_bulk catalog authSt now w name count branch =
      ⟨[], (check_azure_cli_auth authSt now w 0).newState,
        (check_azure_cli_auth authSt now w 0).invoked⟩ := by
  unfold bb7_trigger_bulk
  rw [hp]
  have hz : count.toNat = 0 := Int.toNat_eq_zero.mpr hcount
  simp [hb, hauth, hz, triggerLoop]

/-- C10 witness: `count = 0` (and `count = -2`) with passing probes yields
the empty batch with only the three probes in the trace. -/
theorem claim_C10_zero_count_witness :
    bb7_trigger_bulk demoCatalog ⟨none, none⟩ 0 w50 "web" 0 none =
      ⟨[], (check_azure_cli_auth ⟨none, none⟩ 0 w50 0).newState,
        (check_azure_cli_auth ⟨none, none⟩ 0 w50 0).invoked⟩ ∧
    bb7_trigger_bulk demoCatalog ⟨none, none⟩ 0 w50 "web" (-2) none =
      ⟨[], (check_azure_cli_auth ⟨none, none⟩ 0 w50 0).newState,
        (check_azure_cli_auth ⟨none, none⟩ 0 w50 0).invoked⟩ :=
  ⟨claim_C10_zero_count demoCatalog ⟨none, none⟩ 0 w50 "web" 0 none webEntry
      rfl rfl rfl (by decide),
   claim_C10_zero_count demoCatalog ⟨none, none⟩ 0 w50 "web" (-2) none webEntry
      rfl rfl rfl (by decide)⟩

/-- Whether a `run_az_command` result triggers the bulk loop's early abort:
a failure whose error text carries the authentication signal. -/
def isAuthAbort : CommandResult → Bool
  | .ok _ => false
  | .err e _ => authSignal e

/-- If, among the `n` remaining attempts starting at 0-based attempt `i`,
the first `j` attempts do not hit the abort predicate and attempt `i + j`
does, then the loop records exactly `j + 1` results and issues exactly
`j + 1` trigger commands, the last recorded result being the failure entry
of the aborting attempt. -/
theorem triggerLoop_abort (w : World) (kk : Nat) (name : String)
    (p : PipelineEntry) (tb : String) :
    ∀ (j n i : Nat), j < n →
    (∀ m, m < j → isAuthAbort (w (kk + i + m) (triggerCommand p tb)) = false) →
    isAuthAbort (w (kk + i + j) (triggerCommand p tb)) = true →
    (triggerLoop w kk name p tb i n).1.length = j + 1 ∧
    (triggerLoop w kk name p tb i n).2.length = j + 1 ∧
    ∃ e c, w (kk + i + j) (triggerCommand p tb) = .err e c ∧ authSignal e = true ∧
      (triggerLoop w kk name p tb i n).1[j]? =
        some (.attemptFailed (i + j + 1) name e) := by
  intro j
  induction j with
  | zero =>
    intro n i hj hprev hfail
    rcases n with _ | n'
    · omega
    · simp only [Nat.add_zero] at hfail
      rcases he : w (kk + i) (triggerCommand p tb) with d | ⟨e, c⟩
      · rw [he] at hfail
        simp [isAuthAbort] at hfail
      · have hsig : authSignal e = true := by
          rw [he] at hfail
          simpa [isAuthAbort] using hfail
        refine ⟨?_, ?_, e, c, by simpa using he, hsig, ?_⟩ <;>
          simp [triggerLoop, he, hsig]
  | succ m ih =>
    intro n i hj hprev hfail
    rcases n with _ | n'
    · omega
    · have h0 : isAuthAbort (w (kk + i) (triggerCommand p tb)) = false := by
        have h := hprev 0 (by omega)
        simpa using h
      have hprev' : ∀ m', m' < m →
          isAuthAbort (w (kk + (i + 1) + m') (triggerCommand p tb)) = false := by
        intro m' hm'
        have harith : kk + (i + 1) + m' = kk + i + (m' + 1) := by omega
        rw [harith]
        exact hprev (m' + 1) (by omega)
      have hfail' : isAuthAbort (w (kk + (i + 1) + m) (triggerCommand p tb)) = true := by
        have harith : kk + (i + 1) + m = kk + i + (m + 1) := by omega
        rw [harith]
        exact hfail
      obtain ⟨hlen1, hlen2, e, c, he, hsig, hlast⟩ :=
        ih n' (i + 1) (by omega) hprev' hfail'
      have harith : kk + (i + 1) + m = kk + i + (m + 1) := by omega
      rw [show i + 1 + m + 1 = i + (m + 1) + 1 from by omega] at hlast
      rcases he0 : w (kk + i) (triggerCommand p tb) with d | ⟨e0, c0⟩
      · refine ⟨?_, ?_, e, c, harith ▸ he, hsig, ?_⟩
        · simp [triggerLoop, he0, hlen1]
        · simp [triggerLoop, he0, hlen2]
        · simp only [triggerLoop, he0]
          rw [List.getElem?_cons_succ]
          exact hlast
      · have hsig0 : authSignal e0 = false := by
          rw [he0] at h0
          simpa [isAuthAbort] using h0
        refine ⟨?_, ?_, e, c, harith ▸ he, hsig, ?_⟩
        · simp [triggerLoop, he0, hsig0, hlen1]
        · simp [triggerLoop, he0, hsig0, hlen2]
        · simp only [triggerLoop, he0, hsig0, Bool.false_eq_true, if_false]
          rw [List.getElem?_cons_succ]
          exact hlast

/-- C2: in a bulk-trigger call that reaches the loop (pipeline found,
branch available, authentication passing), if the first `k - 1` attempts do
not hit the abort predicate and attempt `k` (1-based) fails with an error
text carrying the authentication/authorization signal (case-insensitive
substring check for `"authentication"` / `"unauthorized"`), then the
failing attempt `k` is recorded as the batch's `k`-th (last) entry, the
batch has exactly `k` entries, and exactly `k` trigger commands were
issued beyond the authentication check's own probes — attempts `k + 1` to
`count` never execute. -/
theorem claim_C2_early_abort (catalog : Catalog) (authSt : AuthCacheState)
    (now : ℚ) (w : World) (name : String) (count : Int)
    (branch : Option String) (p : PipelineEntry) (k : Nat)
    (hp : catalogGet catalog name = some p)
    (hb : truthyStr (targetBranch branch p) = true)
    (hauth : (check_azure_cli_auth authSt now w 0).status.authenticated = true)
    (hk1 : 1 ≤ k) (hk : k ≤ count.toNat)
    (hprev : ∀ m, m < k - 1 →
      isAuthAbort (w ((check_azure_cli_auth authSt now w 0).invoked.length + m)
        (triggerCommand p ((targetBranch branch p).getD ""))) = false)
    (hfail : isAuthAbort (w ((check_azure_cli_auth authSt now w 0).invoked.length + (k - 1))
        (triggerCommand p ((targetBranch branch p).getD ""))) = true) :
    (bb7_trigger_bulk catalog authSt now w name count branch).results.length = k ∧
    (bb7_trigger_bulk catalog authSt now w name count branch).invoked.length =
      (check_azure_cli_auth authSt now w 0).invoked.length + k ∧
    ∃ e c, w ((check_azure_cli_auth authSt now w 0).invoked.length + (k - 1))
        (triggerCommand p ((targetBranch branch p).getD "")) = .err e c ∧
      authSignal e = true ∧
      (bb7_trigger_bulk catalog authSt now w name count branch).results[k - 1]? =
        some (.attemptFailed k name e) := by
  have habort := triggerLoop_abort w (check_azure_cli_auth authSt now w 0).invoked.length
    name p ((targetBranch branch p).getD "") (k - 1) count.toNat 0 (by omega)
    (by intro m hm; exact hprev m hm) hfail
  obtain ⟨hlen1, hlen2, e, c, he, hsig, hlast⟩ := habort
  have hout : bb7_trigger_bulk catalog authSt now w name count branch =
      ⟨(triggerLoop w (check_azure_cli_auth authSt now w 0).invoked.length name p
          ((targetBranch branch p).getD "") 0 count.toNat).1,
        (check_azure_cli_auth authSt now w 0).newState,
        (check_azure_cli_auth authSt now w 0).invoked ++
          (triggerLoop w (check_azure_cli_auth authSt now w 0).invoked.length name p
            ((targetBranch branch p).getD "") 0 count.toNat).2⟩ := by
    unfold bb7_trigger_bulk
    rw [hp]
    simp [hb, hauth]
  rw [hout]
  refine ⟨?_, ?_, e, c, he, hsig, ?_⟩
  · dsimp only
    rw [hlen1]
    omega
  · dsimp only
    rw [List.length_append, hlen2]
    omega
  · dsimp only
    rw [show (0 : Nat) + (k - 1) + 1 = k from by omega] at hlast
    exact hlast

/-- A world whose three probes succeed, whose first trigger attempt
(invocation index 3) succeeds, and whose second trigger attempt (invocation
index 4) fails with `"Unauthorized: token expired"`. -/
def w2fail : World := fun i _ =>
  if i = 4 then .err "Unauthorized: token expired" none else .ok (Json.obj [])

/-- C2 witness: `count = 5` with attempt 2 failing as
`"Unauthorized: token expired"` — the batch has exactly 2 entries, exactly
2 trigger commands follow the 3 auth probes, and entry 2 records the
failure. -/
theorem claim_C2_early_abort_witness :
    (bb7_trigger_bulk demoCatalog ⟨none, none⟩ 0 w2fail "web" 5 none).results.length = 2 ∧
    (bb7_trigger_bulk demoCatalog ⟨none, none⟩ 0 w2fail "web" 5 none).invoked.length =
      (check_azure_cli_auth ⟨none, none⟩ 0 w2fail 0).invoked.length + 2 ∧
    ∃ e c, w2fail ((check_azure_cli_auth ⟨none, none⟩ 0 w2fail 0).invoked.length + (2 - 1))
        (triggerCommand webEntry ((targetBranch none webEntry).getD "")) = .err e c ∧
      authSignal e = true ∧
      (bb7_trigger_bulk demoCatalog ⟨none, none⟩ 0 w2fail "web" 5 none).results[2 - 1]? =
        some (.attemptFailed 2 "web" e) :=
  claim_C2_early_abort demoCatalog ⟨none, none⟩ 0 w2fail "web" 5 none webEntry 2
    rfl rfl rfl (by decide) (by decide)
    (by
      intro m hm
      have hm0 : m = 0 := by omega
      subst hm0
      rfl)
    rfl

/-- C7 witness: the unmatched query `"nomatch"` over the two-pipeline
catalog produces the not-found result carrying both catalog names. -/
theorem claim_C7_tiered_resolution_witness :
    ss_trigger_bulk intCatalog ssOkWorld2 "nomatch" 1 none =
      ([.notFound "Pipeline 'nomatch' not found"
          ["integration-main", "integration-test"]], []) :=
  claim_C7_tiered_resolution.2.2.2.2 intCatalog ssOkWorld2 "nomatch" 1 none
    (by simp [intCatalog]) (by decide)
